import Mathlib

/-!
Verification development for the streaming query client (`submitQuery` in the
ApiProvider component).  The source consumes a chunked newline-delimited
streaming HTTP response, decodes each line as JSON (with a fallback branch
intended for double-encoded payloads), and folds typed events
(`documents` / `highlights` / `answer`, plus top-level `error` fields) into a
`QueryResult` aggregate held in React state.

Embedding conventions:
- JS values produced by `JSON.parse` are modelled by the inductive `Json`;
  `undefined` (absent property) is modelled as `Option Json` with `none`,
  while JS `null` is `some Json.null`.
- JSON numbers are modelled as integers; lines containing fractional or
  exponent numerals are treated as decode failures (floating point is out of
  scope of the embedding and no event in the protocol uses it).
- React `setState` updaters are modelled as synchronously applied state
  transformations, in call order (React applies queued functional updates in
  order, each seeing the previous result).
- JS exceptions are modelled with `Except String`; the `try/catch` around the
  per-line body (and around the final-buffer body) catches them into the
  recorded parse-error state.
-/

/-- JS value resulting from `JSON.parse`: null, booleans, (integer) numbers,
strings, arrays and objects.  Object fields are kept in insertion order. -/
inductive Json where
  | null : Json
  | bool : Bool → Json
  | num : Int → Json
  | str : String → Json
  | arr : List Json → Json
  | obj : List (String × Json) → Json

/-- First field with the given key, as JS property lookup on an object. -/
def lookupField : List (String × Json) → String → Option Json
  | [], _ => none
  | (k, v) :: rest, key => if k = key then some v else lookupField rest key

/-- JS object field assignment: replaces the value in place if the key exists
(keeping its position, as JS objects do), otherwise appends the field. -/
def insertField (fs : List (String × Json)) (key : String) (v : Json) :
    List (String × Json) :=
  if fs.any (fun p => p.1 = key) then
    fs.map (fun p => if p.1 = key then (key, v) else p)
  else
    fs ++ [(key, v)]

/-- JSON whitespace accepted by `JSON.parse`. -/
def isJsonWs (c : Char) : Bool :=
  c = ' ' || c = '\t' || c = '\n' || c = '\r'

/-- Drop leading JSON whitespace. -/
def skipWs (cs : List Char) : List Char := cs.dropWhile isJsonWs

/-- Value of a hexadecimal digit, if any. -/
def hexVal : Char → Option Nat := fun c =>
  if '0' ≤ c ∧ c ≤ '9' then some (c.toNat - 48)
  else if 'a' ≤ c ∧ c ≤ 'f' then some (c.toNat - 87)
  else if 'A' ≤ c ∧ c ≤ 'F' then some (c.toNat - 55)
  else none

/-- Single-character JSON string escapes. -/
def escChar : Char → Option Char := fun c =>
  if c = '"' then some '"'
  else if c = '\\' then some '\\'
  else if c = '/' then some '/'
  else if c = 'b' then some (Char.ofNat 8)
  else if c = 'f' then some (Char.ofNat 12)
  else if c = 'n' then some '\n'
  else if c = 'r' then some '\r'
  else if c = 't' then some '\t'
  else none

/-- Parse the body of a JSON string literal (opening quote already consumed),
returning the decoded string and the remaining input. -/
def parseStrAux : List Char → List Char → Except String (String × List Char)
  | _, [] => .error "Unterminated string in JSON"
  | acc, '"' :: rest => .ok (String.mk acc.reverse, rest)
  | acc, '\\' :: 'u' :: h1 :: h2 :: h3 :: h4 :: rest =>
    match hexVal h1, hexVal h2, hexVal h3, hexVal h4 with
    | some a, some b, some c, some d =>
      parseStrAux (Char.ofNat (((a * 16 + b) * 16 + c) * 16 + d) :: acc) rest
    | _, _, _, _ => .error "Bad Unicode escape in JSON"
  | _, ['\\'] => .error "Unterminated string in JSON"
  | acc, '\\' :: e :: rest =>
    match escChar e with
    | some c => parseStrAux (c :: acc) rest
    | none => .error "Bad escaped character in JSON string"
  | acc, c :: rest =>
    if c.toNat < 32 then .error "Bad control character in JSON string"
    else parseStrAux (c :: acc) rest

/-- Digits to a natural number. -/
def digitsToNat (ds : List Char) : Nat :=
  ds.foldl (fun n c => n * 10 + (c.toNat - 48)) 0

/-- Parse a JSON integer numeral (fractions and exponents are out of scope of
the embedding and reported as decode failures). -/
def parseNum (cs : List Char) (neg : Bool) : Except String (Json × List Char) :=
  let p := cs.span (fun c => c.isDigit)
  if p.1 = [] then .error "Unexpected token in JSON number"
  else
    match p.2 with
    | '.' :: _ => .error "Unsupported number in JSON"
    | 'e' :: _ => .error "Unsupported number in JSON"
    | 'E' :: _ => .error "Unsupported number in JSON"
    | rest =>
      let n : Int := Int.ofNat (digitsToNat p.1)
      .ok (.num (if neg then -n else n), rest)

mutual

/-- Parse one JSON value from the input (no leading whitespace), fuelled. -/
def parseValueF : Nat → List Char → Except String (Json × List Char)
  | 0, _ => .error "JSON nesting too deep"
  | fuel + 1, cs =>
    match cs with
    | [] => .error "Unexpected end of JSON input"
    | '{' :: rest => parseObjItems fuel rest []
    | '[' :: rest => parseArrItems fuel rest []
    | '"' :: rest =>
      match parseStrAux [] rest with
      | .error e => .error e
      | .ok (s, rest2) => .ok (.str s, rest2)
    | 't' :: 'r' :: 'u' :: 'e' :: rest => .ok (.bool true, rest)
    | 'f' :: 'a' :: 'l' :: 's' :: 'e' :: rest => .ok (.bool false, rest)
    | 'n' :: 'u' :: 'l' :: 'l' :: rest => .ok (.null, rest)
    | '-' :: rest => parseNum rest true
    | c :: rest =>
      if c.isDigit then parseNum (c :: rest) false
      else .error "Unexpected token in JSON"

/-- Parse array items after the opening bracket, fuelled. -/
def parseArrItems : Nat → List Char → List Json →
    Except String (Json × List Char)
  | 0, _, _ => .error "JSON nesting too deep"
  | fuel + 1, cs, acc =>
    match skipWs cs with
    | ']' :: rest =>
      match acc with
      | [] => .ok (.arr [], rest)
      | _ => .error "Unexpected token in JSON array"
    | cs2 =>
      match parseValueF fuel cs2 with
      | .error e => .error e
      | .ok (v, rest) =>
        match skipWs rest with
        | ',' :: rest2 => parseArrItems fuel rest2 (acc ++ [v])
        | ']' :: rest2 => .ok (.arr (acc ++ [v]), rest2)
        | _ => .error "Expected comma or close bracket in JSON array"

/-- Parse object fields after the opening brace, fuelled.  Duplicate keys
overwrite in place, as `JSON.parse` does. -/
def parseObjItems : Nat → List Char → List (String × Json) →
    Except String (Json × List Char)
  | 0, _, _ => .error "JSON nesting too deep"
  | fuel + 1, cs, acc =>
    match skipWs cs with
    | '}' :: rest =>
      match acc with
      | [] => .ok (.obj [], rest)
      | _ => .error "Unexpected token in JSON object"
    | '"' :: rest =>
      match parseStrAux [] rest with
      | .error e => .error e
      | .ok (key, rest2) =>
        match skipWs rest2 with
        | ':' :: rest3 =>
          match parseValueF fuel (skipWs rest3) with
          | .error e => .error e
          | .ok (v, rest4) =>
            match skipWs rest4 with
            | ',' :: rest5 => parseObjItems fuel rest5 (insertField acc key v)
            | '}' :: rest5 => .ok (.obj (insertField acc key v), rest5)
            | _ => .error "Expected comma or close brace in JSON object"
        | _ => .error "Expected colon in JSON object"
    | _ => .error "Expected string key in JSON object"

end

/-- Model of `JSON.parse` on one line: parse a single JSON value surrounded by
optional whitespace, failing on anything else. -/
def parseJson (cs : List Char) : Except String Json :=
  match parseValueF (cs.length + 1) (skipWs cs) with
  | .error e => .error e
  | .ok (v, rest) =>
    if skipWs rest = [] then .ok v
    else .error "Unexpected non-whitespace character after JSON data"

/-- JS truthiness of a value. -/
def jsTruthy : Json → Bool
  | .null => false
  | .bool b => b
  | .num n => n ≠ 0
  | .str s => s ≠ ""
  | .arr _ => true
  | .obj _ => true

/-- JS truthiness where `none` stands for `undefined`. -/
def jsTruthyO : Option Json → Bool
  | none => false
  | some v => jsTruthy v

/-- JS property read `j.k`: `undefined` (`none`) on non-objects, a `TypeError`
on `null`, field lookup on objects. -/
def jsGetE (j : Json) (k : String) : Except String (Option Json) :=
  match j with
  | .null => .error ("Cannot read properties of null (reading " ++ k ++ ")")
  | .obj fs => .ok (lookupField fs k)
  | _ => .ok none

/-- Pure variant of property read used in theorem statements: field lookup on
objects, `none` otherwise. -/
def jsGetOk (j : Json) (k : String) : Option Json :=
  match j with
  | .obj fs => lookupField fs k
  | _ => none

/-- JS `String(v)` coercion for parsed JSON values (used for object property
keys; array elements are joined with commas). -/
def jsToKeyString : Json → String
  | .null => "null"
  | .bool true => "true"
  | .bool false => "false"
  | .num n => toString n
  | .str s => s
  | .arr xs => String.intercalate "," (xs.map (fun x => jsToKeyStringList [x]))
  | .obj _ => "[object Object]"
where
  /-- helper giving each element its key string (kept trivial to satisfy the
  nested recursion). -/
  jsToKeyStringList : List Json → String
  | [] => ""
  | [x] =>
    match x with
    | .null => "null"
    | .bool true => "true"
    | .bool false => "false"
    | .num n => toString n
    | .str s => s
    | .arr _ => ""
    | .obj _ => "[object Object]"
  | _ :: _ :: _ => ""

/-- JS property key coercion where `none` stands for `undefined`. -/
def jsKeyOf : Option Json → String
  | none => "undefined"
  | some v => jsToKeyString v

/-- JS object spread `{...v}`: the fields of an object, nothing for `null`
and primitives (string index spreading is not exercised by the protocol). -/
def jsSpread : Json → List (String × Json)
  | .obj fs => fs
  | _ => []

/-- JS whitespace trimmed by `String.prototype.trim`. -/
def isJsSpace (c : Char) : Bool :=
  c = ' ' || c = '\t' || c = '\n' || c = '\r' ||
  c = Char.ofNat 11 || c = Char.ofNat 12 || c = Char.ofNat 0xA0

/-- Model of `line.trim()` on a JS string held as a character list. -/
def jsTrim (cs : List Char) : List Char :=
  ((cs.dropWhile isJsSpace).reverse.dropWhile isJsSpace).reverse

/-- The `??` (nullish coalescing) operator: falls through on `undefined`
(`none`) and on JS `null`. -/
def nullish (a b : Option Json) : Option Json :=
  match a with
  | none => b
  | some .null => b
  | some v => some v

/-- The resilient line decoder (source lines 105-121 and their duplicate
197-212): try `JSON.parse` on the raw line; on failure, if the line starts and
ends with a quote, re-run `JSON.parse` on the same line and parse the result
again (the re-run is the literal control flow of the source: the catch block
calls `JSON.parse(line)` on the unchanged line). -/
def decodeLine (line : List Char) : Except String Json :=
  match parseJson line with
  | .ok d => .ok d
  | .error e =>
    if line.head? = some '"' ∧ line.getLast? = some '"' then
      match parseJson line with
      | .ok unescaped => parseJson (jsToKeyString unescaped).data
      | .error e2 => .error e2
    else .error e

/-- One `QueryResult` under construction.  `Option Json` fields use `none`
for JS `undefined` and `some Json.null` for JS `null`. -/
structure QueryResult where
  question : String
  documents : Option Json
  answer : Option Json
  structured_answer : Option Json
  streamError : Option Json
  requestedK : Option Json
  effectiveK : Option Json

/-- The freshly initialized `QueryResult` created at query submission
(source lines 52-61). -/
def initQuery (question : String) : QueryResult :=
  { question := question
    documents := some (.arr [])
    answer := some .null
    structured_answer := some .null
    streamError := some .null
    requestedK := some .null
    effectiveK := some .null }

/-- Provider-level state: the `isLoading` / `error` / `isResourcesLoaded` /
`currentQuery` / `numDocs` React state cells. -/
structure SessionState where
  isLoading : Bool
  error : Json
  isResourcesLoaded : Bool
  currentQuery : Option QueryResult
  numDocs : Int

/-- Effect of catching a per-line processing exception (source lines 184-193
and 228-237): record the message as the general error and as the query's
`streamError`; the loading flag is not touched. -/
def recordParseError (msg : String) (s : SessionState) : SessionState :=
  { s with
    error := .str msg
    currentQuery :=
      s.currentQuery.map (fun q => { q with streamError := some (.str msg) }) }

/-- Build the `highlightMap` (source lines 148-151): for each entry of the
`highlights` event payload, map its content key to `doc.highlights || []`.
A `null` entry raises a `TypeError`, as `doc.content` would in JS. -/
def buildHighlightMap (items : List Json) :
    Except String (List (String × Json)) :=
  items.foldlM
    (fun hm doc => do
      let c ← jsGetE doc "content"
      let h ← jsGetE doc "highlights"
      let v : Json :=
        match h with
        | some hv => if jsTruthy hv then hv else .arr []
        | none => .arr []
      pure (insertField hm (jsKeyOf c) v))
    []

/-- Per-document update of the `highlights` branch (source lines 154-157):
`{...doc, highlights: highlightMap[doc.content] || []}`. -/
def attachHighlights (hm : List (String × Json)) (doc : Json) :
    Except String Json := do
  let c ← jsGetE doc "content"
  let v : Json :=
    match lookupField hm (jsKeyOf c) with
    | some hv => if jsTruthy hv then hv else .arr []
    | none => .arr []
  pure (.obj (insertField (jsSpread doc) "highlights" v))

/-- Body of the per-line event handling (source lines 123-183): check the
top-level `error` field, then dispatch on `type`.  Thrown `TypeError`s are
surfaced through `Except` and caught by `processLine`. -/
def handleData (data : Json) (s : SessionState) : Except String SessionState := do
  let errF ← jsGetE data "error"
  if jsTruthyO errF then
    match errF with
    | some ev =>
      pure { s with
        error := ev
        isLoading := false
        currentQuery :=
          s.currentQuery.map (fun q => { q with streamError := some ev }) }
    | none => pure s
  else
    let tyF ← jsGetE data "type"
    match tyF with
    | some (.str t) =>
      if t = "documents" then do
        let dd ← jsGetE data "data"
        let rk ← jsGetE data "requested_k"
        let ek ← jsGetE data "effective_k"
        pure { s with
          currentQuery :=
            s.currentQuery.map (fun q =>
              { q with
                documents := dd
                requestedK := nullish rk (nullish q.requestedK (some .null))
                effectiveK := nullish ek (nullish q.effectiveK (some .null)) }) }
      else if t = "highlights" then do
        let dd ← jsGetE data "data"
        match dd with
        | some (.arr items) => do
          let hm ← buildHighlightMap items
          let rk ← jsGetE data "requested_k"
          let ek ← jsGetE data "effective_k"
          match s.currentQuery with
          | some q =>
            match q.documents with
            | some (.arr ds) => do
              let newDs ← ds.mapM (attachHighlights hm)
              pure { s with
                currentQuery := some
                  { q with
                    documents := some (.arr newDs)
                    requestedK := nullish rk (nullish q.requestedK (some .null))
                    effectiveK := nullish ek (nullish q.effectiveK (some .null)) } }
            | some .null =>
              .error "Cannot read properties of null (reading map)"
            | none =>
              .error "Cannot read properties of undefined (reading map)"
            | some _ => .error "prev.documents.map is not a function"
          | none => .error "Cannot read properties of null (reading documents)"
        | some .null => .error "Cannot read properties of null (reading forEach)"
        | none => .error "Cannot read properties of undefined (reading forEach)"
        | some _ => .error "data.data.forEach is not a function"
      else if t = "answer" then do
        let dd ← jsGetE data "data"
        let ans ←
          match dd with
          | some dj => jsGetE dj "answer"
          | none => .error "Cannot read properties of undefined (reading answer)"
        let sa ←
          match dd with
          | some dj => jsGetE dj "structured_answer"
          | none =>
            .error "Cannot read properties of undefined (reading structured_answer)"
        let s1 := { s with
          currentQuery :=
            s.currentQuery.map (fun q =>
              { q with answer := ans, structured_answer := sa }) }
        let dn ← jsGetE data "done"
        if jsTruthyO dn then pure { s1 with isLoading := false } else pure s1
      else pure s
    | _ => pure s

/-- Processing of one complete line of the stream (source lines 103-194):
skip blank lines, decode resiliently, handle the event; any failure is caught
and recorded with the `stream_parse_error: ` prefix. -/
def processLine (s : SessionState) (line : List Char) : SessionState :=
  if jsTrim line = [] then s
  else
    match decodeLine line with
    | .error m => recordParseError ("stream_parse_error: " ++ m) s
    | .ok data =>
      match handleData data s with
      | .ok s2 => s2
      | .error m => recordParseError ("stream_parse_error: " ++ m) s

/-- Processing of a sequence of complete lines, in arrival order. -/
def processLines (lines : List (List Char)) (s : SessionState) : SessionState :=
  lines.foldl processLine s

/-- Body of the final-buffer handling (source lines 214-227): only the
`type === "error" || error` check and the `type === "answer" && done` check
are applied; no `documents` / `highlights` / `answer` merge happens here. -/
def handleFinal (data : Json) (s : SessionState) : Except String SessionState := do
  let tyF ← jsGetE data "type"
  let isErrTy : Bool :=
    match tyF with
    | some (.str t) => t = "error"
    | _ => false
  let errF ← jsGetE data "error"
  let s1 ←
    if isErrTy || jsTruthyO errF then
      let finalMsg : Json :=
        match errF with
        | some ev => if jsTruthy ev then ev else .str "Unknown streaming error"
        | none => .str "Unknown streaming error"
      pure { s with
        error := finalMsg
        isLoading := false
        currentQuery :=
          s.currentQuery.map (fun q => { q with streamError := some finalMsg }) }
    else pure s
  let isAnsTy : Bool :=
    match tyF with
    | some (.str t) => t = "answer"
    | _ => false
  let dn ← jsGetE data "done"
  if isAnsTy && jsTruthyO dn then pure { s1 with isLoading := false } else pure s1

/-- Processing of the non-empty trailing buffer at end of stream (source
lines 197-238); failures are recorded with the distinct
`stream_parse_error(final): ` prefix. -/
def processFinal (s : SessionState) (buffer : List Char) : SessionState :=
  match decodeLine buffer with
  | .error m => recordParseError ("stream_parse_error(final): " ++ m) s
  | .ok data =>
    match handleFinal data s with
    | .ok s2 => s2
    | .error m => recordParseError ("stream_parse_error(final): " ++ m) s

/-- State of the streaming `TextDecoder`: pending bytes of an incomplete
UTF-8 sequence and the number of continuation bytes still expected. -/
structure DecState where
  pend : List Nat
  need : Nat

/-- Handle a byte in lead position: ASCII emits directly, lead bytes open a
multi-byte sequence, stray continuation or invalid bytes emit U+FFFD. -/
def utf8Lead (b : Nat) : DecState × List Char :=
  if b < 0x80 then (⟨[], 0⟩, [Char.ofNat b])
  else if b < 0xC0 then (⟨[], 0⟩, [Char.ofNat 0xFFFD])
  else if b < 0xE0 then (⟨[b], 1⟩, [])
  else if b < 0xF0 then (⟨[b], 2⟩, [])
  else if b < 0xF8 then (⟨[b], 3⟩, [])
  else (⟨[], 0⟩, [Char.ofNat 0xFFFD])

/-- Assemble the code point of a completed UTF-8 sequence. -/
def utf8Finish (bytes : List Nat) : Char :=
  match bytes with
  | [l, c1] => Char.ofNat ((l - 0xC0) * 0x40 + (c1 - 0x80))
  | [l, c1, c2] => Char.ofNat ((l - 0xE0) * 0x1000 + (c1 - 0x80) * 0x40 + (c2 - 0x80))
  | [l, c1, c2, c3] =>
    Char.ofNat ((l - 0xF0) * 0x40000 + (c1 - 0x80) * 0x1000 + (c2 - 0x80) * 0x40 + (c3 - 0x80))
  | _ => Char.ofNat 0xFFFD

/-- One byte of stateful UTF-8 decoding (the decoder is stateful across
chunks, as `TextDecoder` with `stream: true`). -/
def utf8Step (st : DecState) (b : Nat) : DecState × List Char :=
  if st.need = 0 then utf8Lead b
  else if 0x80 ≤ b ∧ b < 0xC0 then
    if st.need = 1 then (⟨[], 0⟩, [utf8Finish (st.pend ++ [b])])
    else (⟨st.pend ++ [b], st.need - 1⟩, [])
  else
    let p := utf8Lead b
    (p.1, Char.ofNat 0xFFFD :: p.2)

/-- Decode one chunk of bytes, carrying the decoder state. -/
def decodeChunk (d : DecState) (bs : List Nat) : DecState × List Char :=
  bs.foldl (fun p b => let q := utf8Step p.1 b; (q.1, p.2 ++ q.2)) (d, [])

/-- Prepend a prefix onto the first segment of a split result. -/
def glueHead (x : List Char) : List (List Char) → List (List Char)
  | [] => [x]
  | h :: t => (x ++ h) :: t

/-- Split on `\x5cn` exactly as `String.prototype.split` does: the result is
never empty and keeps empty segments. -/
def splitNl : List Char → List (List Char)
  | [] => [[]]
  | c :: cs =>
    if c = '\n' then [] :: splitNl cs
    else glueHead [c] (splitNl cs)

/-- State of the framer: decoder state, the retained (possibly incomplete)
last segment, and the complete lines emitted so far. -/
structure FrState where
  dec : DecState
  buf : List Char
  lines : List (List Char)

/-- Process one byte chunk (source lines 95-100): decode, append to the
buffer, split on newlines, emit all complete segments, retain the last. -/
def framerChunk (st : FrState) (bs : List Nat) : FrState :=
  let dt := decodeChunk st.dec bs
  let parts := splitNl (st.buf ++ dt.2)
  { dec := dt.1
    buf := (parts.getLast?).getD []
    lines := st.lines ++ parts.dropLast }

/-- The initial framer state (`buffer = ''`, fresh decoder). -/
def frInit : FrState := ⟨⟨[], 0⟩, [], []⟩

/-- Run the framer over the whole sequence of byte chunks. -/
def runFramer (chunks : List (List Nat)) : FrState :=
  chunks.foldl framerChunk frInit

/-- All logical lines produced from a chunked response: the complete emitted
lines, plus the final flushed buffer when its trimmed form is non-empty
(source line 198). -/
def framedLines (chunks : List (List Nat)) : List (List Char) :=
  let st := runFramer chunks
  st.lines ++ (if jsTrim st.buf = [] then [] else [st.buf])

/-- An HTTP response as consumed by the streaming path: status line data and
the body as a sequence of byte chunks.  `ok` is the fetch semantics
(status in the 2xx range). -/
structure HttpResponse where
  status : Nat
  statusText : String
  chunks : List (List Nat)

/-- `Response.ok` of the fetch API. -/
def HttpResponse.ok (r : HttpResponse) : Bool :=
  decide (200 ≤ r.status ∧ r.status < 300)

/-- Record of one network request issued by `submitQuery`. -/
structure FetchCall where
  url : String
  question : String
  num_docs : Int

/-- The resources-not-loaded error message (source line 45). -/
def resourcesNotLoadedMsg : String :=
  "Resources not loaded. Please wait for the system to initialize."

/-- Model of `submitQuery` (source lines 43-248).  Returns the final provider
state, the value returned to the caller, and the list of network requests
issued.  The `return currentQuery` of the source returns the value captured
by the closure, i.e. the query reference from before this submission. -/
def submitQuery (resp : HttpResponse) (question : String) (s : SessionState) :
    SessionState × Option QueryResult × List FetchCall :=
  if s.isResourcesLoaded = false then
    ({ s with error := .str resourcesNotLoadedMsg }, none, [])
  else
    let s2 : SessionState :=
      { s with
        isLoading := true
        error := .null
        currentQuery := some (initQuery question) }
    let call : FetchCall :=
      { url := "/api/query/stream", question := question, num_docs := s.numDocs }
    if resp.ok = false then
      let msg : String :=
        "Server responded with " ++ toString resp.status ++ ": " ++ resp.statusText
      let s3 := { s2 with
        currentQuery :=
          s2.currentQuery.map
            (fun q : QueryResult => { q with streamError := some (.str msg) }) }
      ({ s3 with error := .str msg, isLoading := false }, none, [call])
    else
      let fr := runFramer resp.chunks
      let s3 := processLines fr.lines s2
      let s4 := if jsTrim fr.buf = [] then s3 else processFinal s3 fr.buf
      ({ s4 with isLoading := false }, s.currentQuery, [call])

/-- Baseline provider state right after query submission (loading set, fresh
`QueryResult` for question `q`), used by the concrete scenarios. -/
def s0 : SessionState :=
  { isLoading := true
    error := .null
    isResourcesLoaded := true
    currentQuery := some (initQuery "q")
    numDocs := 20 }

/-- First line of the concrete scenario: a `documents` event with two
documents and both k fields. -/
def lineDocs : List Char :=
  ("\x7b\"type\":\"documents\",\"data\":[\x7b\"content\":\"A\"\x7d,\x7b\"content\":\"B\"\x7d],\"requested_k\":5,\"effective_k\":3\x7d").data

/-- Second line of the concrete scenario: a `highlights` event covering only
document `A`. -/
def lineHighlights : List Char :=
  ("\x7b\"type\":\"highlights\",\"data\":[\x7b\"content\":\"A\",\"highlights\":[\"x\"]\x7d]\x7d").data

/-- Third line of the concrete scenario: the terminal `answer` event. -/
def lineAnswer : List Char :=
  ("\x7b\"type\":\"answer\",\"data\":\x7b\"answer\":\"done\",\"structured_answer\":\x7b\"v\":1\x7d\x7d,\"done\":true\x7d").data

/-- Expected final documents of the concrete scenario. -/
def docsAfterHighlights : Json :=
  .arr
    [ .obj [("content", .str "A"), ("highlights", .arr [.str "x"])]
    , .obj [("content", .str "B"), ("highlights", .arr [])] ]

/-- The double-encoded form of `innerLine`: the documents event serialized
once more as a JSON string literal. -/
def dblLine : List Char :=
  ("\"\x7b\\\"type\\\":\\\"documents\\\",\\\"data\\\":[\x7b\\\"content\\\":\\\"A\\\"\x7d]\x7d\"").data

/-- A directly-encoded documents event line with one document. -/
def innerLine : List Char :=
  ("\x7b\"type\":\"documents\",\"data\":[\x7b\"content\":\"A\"\x7d]\x7d").data

/-- The text content of `innerLine` as a string (what `JSON.parse` yields on
`dblLine`). -/
def innerStr : String := String.mk innerLine

/-- The event object `innerLine` decodes to. -/
def innerJson : Json :=
  .obj [("type", .str "documents"), ("data", .arr [.obj [("content", .str "A")]])]

/-- An answer event that carries `requested_k` and `effective_k`. -/
def lineAnswerRk : List Char :=
  ("\x7b\"type\":\"answer\",\"data\":\x7b\"answer\":\"a\",\"structured_answer\":null\x7d,\"requested_k\":7,\"effective_k\":9\x7d").data

/-- The event object `lineAnswerRk` decodes to. -/
def ansRkJson : Json :=
  .obj
    [ ("type", .str "answer")
    , ("data", .obj [("answer", .str "a"), ("structured_answer", .null)])
    , ("requested_k", .num 7)
    , ("effective_k", .num 9) ]

/-- A documents event carrying a falsy (empty-string) `error` field. -/
def lineDocsEmptyErr : List Char :=
  ("\x7b\"type\":\"documents\",\"data\":[\x7b\"content\":\"A\"\x7d],\"error\":\"\"\x7d").data

/-- The event object `lineDocsEmptyErr` decodes to. -/
def docsEmptyErrJson : Json :=
  .obj
    [ ("type", .str "documents")
    , ("data", .arr [.obj [("content", .str "A")]])
    , ("error", .str "") ]

/-- A first answer event (answer `one`). -/
def lineAnswerOne : List Char :=
  ("\x7b\"type\":\"answer\",\"data\":\x7b\"answer\":\"one\",\"structured_answer\":null\x7d\x7d").data

/-- A second answer event (answer `two`). -/
def lineAnswerTwo : List Char :=
  ("\x7b\"type\":\"answer\",\"data\":\x7b\"answer\":\"two\",\"structured_answer\":null\x7d\x7d").data

/-- A documents event left in the final buffer (no trailing newline). -/
def flushDocs : List Char :=
  ("\x7b\"type\":\"documents\",\"data\":[\x7b\"content\":\"A\"\x7d],\"requested_k\":5\x7d").data

/-- The event object `flushDocs` decodes to. -/
def flushDocsJson : Json :=
  .obj
    [ ("type", .str "documents")
    , ("data", .arr [.obj [("content", .str "A")]])
    , ("requested_k", .num 5) ]

/-- A final buffer carrying an application error. -/
def flushErr : List Char := ("\x7b\"error\":\"timeout\"\x7d").data

/-- An undecodable line. -/
def badLine : List Char := ("notjson").data

/-- A 503 response (any body chunks). -/
def resp503 (chunks : List (List Nat)) : HttpResponse :=
  { status := 503, statusText := "Service Unavailable", chunks := chunks }

/-- Provider state with resources loaded and no query yet. -/
def sReady : SessionState :=
  { isLoading := false
    error := .null
    isResourcesLoaded := true
    currentQuery := none
    numDocs := 20 }

/-- Provider state with resources not loaded and a previous query result. -/
def sNotLoaded : SessionState :=
  { isLoading := false
    error := .null
    isResourcesLoaded := false
    currentQuery := some (initQuery "old")
    numDocs := 20 }

/-- All `QueryResult` fields except `streamError`: the part of the aggregate
that event merges write and error recording must not touch. -/
def coreFields (q : QueryResult) :
    String × Option Json × Option Json × Option Json × Option Json × Option Json :=
  (q.question, q.documents, q.answer, q.structured_answer, q.requestedK, q.effectiveK)

/-- Bytes of the sample body `a`, newline, a two-byte code point, newline,
`b` — chunked with a split in the middle of the multi-byte code point. -/
def chunksMidCodepoint : List (List Nat) := [[97, 10, 0xC3], [0xA9, 10, 98]]

/-- The same bytes chunked at a different boundary. -/
def chunksOther : List (List Nat) := [[97], [10, 0xC3, 0xA9, 10, 98]]

/-- The message recorded by the final-buffer error path (source line 216):
`data.error || "Unknown streaming error"` — the error value when truthy,
the fixed fallback string otherwise. -/
def finalErrMsg (errF : Option Json) : Json :=
  match errF with
  | some ev => if jsTruthy ev then ev else .str "Unknown streaming error"
  | none => .str "Unknown streaming error"

/-- A final buffer holding an error-typed event with no `error` field. -/
def flushTypeError : List Char := ("\x7b\"type\":\"error\"\x7d").data

/-- `Except` bind on a success, as produced by the do-notation. -/
theorem excBind_ok {α β : Type} (a : α) (f : α → Except String β) :
    (Except.ok a : Except String α) >>= f = f a := rfl

/-- `Except` bind on a failure. -/
theorem excBind_error {α β : Type} (e : String) (f : α → Except String β) :
    (Except.error e : Except String α) >>= f = Except.error e := rfl

/-- C1: the concrete three-line scenario.  Processing the documents,
highlights and answer lines in order from the freshly initialized state
yields documents `A` (with highlight `x`) and `B` (no highlights), k values
5 and 3, answer `done`, structured answer `(v: 1)`, loading false and a
null `streamError`. -/
theorem c1_scenario :
    processLines [lineDocs, lineHighlights, lineAnswer] s0 =
      { s0 with
        isLoading := false
        currentQuery := some
          { initQuery "q" with
            documents := some docsAfterHighlights
            answer := some (.str "done")
            structured_answer := some (.obj [("v", .num 1)])
            requestedK := some (.num 5)
            effectiveK := some (.num 3) } } := rfl

/-- C5 (code bug): the double-encoding fallback never engages.  `JSON.parse`
succeeds on the double-encoded line and yields the inner JSON text as a plain
string, so the decoded value is a string, the event falls through to the
unknown-type branch and the line has no effect; decoding the line directly
yields the documents event and merges it.  The comments at source lines
108-117 state the fallback is meant to make both forms equivalent. -/
theorem c5_double_encoding_dead :
    decodeLine dblLine = .ok (.str innerStr)
    ∧ decodeLine innerLine = .ok innerJson
    ∧ Json.str innerStr ≠ innerJson
    ∧ processLine s0 dblLine = s0
    ∧ (processLine s0 innerLine).currentQuery.map QueryResult.documents
        = some (some (.arr [.obj [("content", .str "A")]]))
    ∧ (s0.currentQuery.map QueryResult.documents = some (some (.arr []))) :=
  ⟨rfl, rfl, by simp [innerJson], rfl, rfl, rfl⟩

/-- C7 counterexample: an `answer` event carrying `requested_k`/`effective_k`
does not set them — the answer branch ignores these fields, so they keep
their initial null value instead of 7 and 9. -/
theorem c7_counterexample :
    decodeLine lineAnswerRk = .ok ansRkJson
    ∧ jsGetOk ansRkJson "requested_k" = some (.num 7)
    ∧ jsGetOk ansRkJson "effective_k" = some (.num 9)
    ∧ (processLine s0 lineAnswerRk).currentQuery.map QueryResult.requestedK
        = some (some .null)
    ∧ (processLine s0 lineAnswerRk).currentQuery.map QueryResult.effectiveK
        = some (some .null)
    ∧ (some (some Json.null) : Option (Option Json)) ≠ some (some (.num 7)) :=
  ⟨rfl, rfl, rfl, rfl, rfl, by simp⟩

/-- C8 counterexample: an event that carries a top-level `error` field with a
falsy (empty-string) value is not treated as an error — the documents merge
is applied and `streamError` stays null rather than the error string. -/
theorem c8_counterexample :
    decodeLine lineDocsEmptyErr = .ok docsEmptyErrJson
    ∧ jsGetOk docsEmptyErrJson "error" = some (.str "")
    ∧ (processLine s0 lineDocsEmptyErr).currentQuery.map QueryResult.documents
        = some (some (.arr [.obj [("content", .str "A")]]))
    ∧ (processLine s0 lineDocsEmptyErr).currentQuery.map QueryResult.streamError
        = some (some .null)
    ∧ (processLine s0 lineDocsEmptyErr).isLoading = true
    ∧ (some (some Json.null) : Option (Option Json)) ≠ some (some (.str "")) :=
  ⟨rfl, rfl, rfl, rfl, rfl, by simp⟩

/-- C9 counterexample: a second `answer` event overwrites `answer`, so
`answer` is not written exactly once and is not protected from being
overwritten after being set. -/
theorem c9_counterexample :
    (processLine s0 lineAnswerOne).currentQuery.map QueryResult.answer
        = some (some (.str "one"))
    ∧ (processLines [lineAnswerOne, lineAnswerTwo] s0).currentQuery.map
        QueryResult.answer = some (some (.str "two"))
    ∧ (some (some (Json.str "one")) : Option (Option Json))
        ≠ some (some (.str "two")) :=
  ⟨rfl, rfl, by simp⟩

/-- C2 counterexample: a `documents` event sitting in the final flush buffer
is not merged — the flush handler leaves the state untouched (documents stay
empty and `requestedK` stays null), unlike a mid-stream documents line. -/
theorem c2_counterexample :
    decodeLine flushDocs = .ok flushDocsJson
    ∧ jsGetOk flushDocsJson "type" = some (.str "documents")
    ∧ jsGetOk flushDocsJson "data" = some (.arr [.obj [("content", .str "A")]])
    ∧ processFinal s0 flushDocs = s0
    ∧ s0.currentQuery.map QueryResult.documents = some (some (.arr []))
    ∧ (some (some (Json.arr [])) : Option (Option Json))
        ≠ some (some (.arr [.obj [("content", .str "A")]])) :=
  ⟨rfl, rfl, rfl, rfl, rfl, by simp⟩

/-- C3 counterexample: after a 503 response the query result is not unset —
it is the freshly initialized `QueryResult` carrying the server error as its
`streamError`. -/
theorem c3_counterexample :
    (submitQuery (resp503 []) "q" sReady).1.currentQuery
      = some { initQuery "q" with
               streamError :=
                 some (.str "Server responded with 503: Service Unavailable") }
    ∧ (some { initQuery "q" with
              streamError :=
                some (.str "Server responded with 503: Service Unavailable") }
        : Option QueryResult) ≠ none :=
  ⟨rfl, by simp⟩

/-- C10: when resources are not loaded, `submitQuery` records the
initialization error, returns null, issues no network request, and leaves
the provider state (in particular the existing query result) otherwise
unchanged — no new `QueryResult` is created. -/
theorem c10_resources_not_loaded (s : SessionState) (question : String)
    (resp : HttpResponse) (h : s.isResourcesLoaded = false) :
    submitQuery resp question s
      = ({ s with error := .str resourcesNotLoadedMsg }, none, []) := by
  unfold submitQuery
  rw [h]
  rfl

/-- Witness for C10 at a concrete state holding a previous query result. -/
theorem c10_witness :
    sNotLoaded.isResourcesLoaded = false
    ∧ submitQuery (resp503 []) "new" sNotLoaded
        = ({ sNotLoaded with error := .str resourcesNotLoadedMsg }, none, [])
    ∧ (submitQuery (resp503 []) "new" sNotLoaded).1.currentQuery
        = some (initQuery "old") :=
  ⟨rfl, c10_resources_not_loaded sNotLoaded "new" (resp503 []) rfl,
   by
     rw [c10_resources_not_loaded sNotLoaded "new" (resp503 []) rfl]
     rfl⟩

/-- C3 amended: a 503 response aborts before any line processing (whatever
the body chunks hold), the surfaced error is the status message, loading is
false, and the query result is the freshly initialized `QueryResult` with
`streamError` set to the same message (not unset). -/
theorem c3_amended (s : SessionState) (question : String)
    (chunks : List (List Nat)) (h : s.isResourcesLoaded = true) :
    submitQuery (resp503 chunks) question s =
      ({ s with
          isLoading := false
          error := .str "Server responded with 503: Service Unavailable"
          currentQuery := some
            { initQuery question with
              streamError :=
                some (.str "Server responded with 503: Service Unavailable") } },
        none,
        [{ url := "/api/query/stream", question := question,
           num_docs := s.numDocs }]) := by
  unfold submitQuery
  rw [h]
  simp only [resp503, HttpResponse.ok]
  norm_num
  rfl

/-- Witness for the amended C3 at a concrete ready state. -/
theorem c3_witness :
    sReady.isResourcesLoaded = true
    ∧ submitQuery (resp503 []) "q" sReady =
        ({ sReady with
            isLoading := false
            error := .str "Server responded with 503: Service Unavailable"
            currentQuery := some
              { initQuery "q" with
                streamError :=
                  some (.str "Server responded with 503: Service Unavailable") } },
          none,
          [{ url := "/api/query/stream", question := "q", num_docs := 20 }]) :=
  ⟨rfl, c3_amended sReady "q" [] rfl⟩

/-- A non-blank line that fails to decode is recorded as a mid-stream parse
error. -/
theorem processLine_decode_error (line : List Char) (m : String)
    (s : SessionState) (htrim : jsTrim line ≠ [])
    (h : decodeLine line = .error m) :
    processLine s line = recordParseError ("stream_parse_error: " ++ m) s := by
  unfold processLine
  rw [if_neg htrim, h]

/-- Recording a parse error does not touch any `QueryResult` field other
than `streamError`. -/
theorem recordParseError_core (msg : String) (s : SessionState) :
    (recordParseError msg s).currentQuery.map coreFields
      = s.currentQuery.map coreFields := by
  cases h : s.currentQuery <;> simp [recordParseError, coreFields, h]

/-- Recording a parse error sets `streamError` to the message on the live
query. -/
theorem recordParseError_streamError (msg : String) (s : SessionState) :
    (recordParseError msg s).currentQuery.map QueryResult.streamError
      = s.currentQuery.map (fun _ => some (.str msg)) := by
  cases h : s.currentQuery <;> simp [recordParseError, h]

/-- C4: a malformed (undecodable) line between two decodable lines does not
disrupt the loop: the sequence is processed exactly as the first valid line,
then a pure parse-error recording (which touches only the error fields and
sets `streamError` to the tagged parse message), then the second valid line.
Processing is total, so no exception escapes the loop. -/
theorem c4_malformed_between (v1 v2 bad : List Char) (m : String)
    (s : SessionState)
    (h1 : ∃ e1, decodeLine v1 = .ok e1) (h2 : ∃ e2, decodeLine v2 = .ok e2)
    (hbad : decodeLine bad = .error m) (htrim : jsTrim bad ≠ []) :
    processLines [v1, bad, v2] s =
        processLine
          (recordParseError ("stream_parse_error: " ++ m) (processLine s v1)) v2
    ∧ (recordParseError ("stream_parse_error: " ++ m)
        (processLine s v1)).currentQuery.map coreFields
        = (processLine s v1).currentQuery.map coreFields
    ∧ (recordParseError ("stream_parse_error: " ++ m)
        (processLine s v1)).currentQuery.map QueryResult.streamError
        = (processLine s v1).currentQuery.map
            (fun _ => some (.str ("stream_parse_error: " ++ m)))
    ∧ (recordParseError ("stream_parse_error: " ++ m)
        (processLine s v1)).error = .str ("stream_parse_error: " ++ m)
    ∧ (recordParseError ("stream_parse_error: " ++ m)
        (processLine s v1)).isLoading = (processLine s v1).isLoading := by
  refine ⟨?_, recordParseError_core _ _, recordParseError_streamError _ _, rfl, rfl⟩
  show processLine (processLine (processLine s v1) bad) v2 = _
  rw [processLine_decode_error bad m (processLine s v1) htrim hbad]

/-- Witness for C4: a documents line, an undecodable line, then an answer
line, processed from the post-submission state. -/
theorem c4_witness :
    decodeLine badLine = .error "Unexpected token in JSON"
    ∧ processLines [lineDocs, badLine, lineAnswer] s0 =
        processLine
          (recordParseError ("stream_parse_error: " ++ "Unexpected token in JSON")
            (processLine s0 lineDocs)) lineAnswer :=
  ⟨rfl,
   (c4_malformed_between lineDocs lineAnswer badLine "Unexpected token in JSON"
      s0 ⟨_, rfl⟩ ⟨_, rfl⟩ rfl (by decide)).1⟩

/-- Lifting `pure` for `Except`. -/
theorem excPure {α : Type} (a : α) :
    (pure a : Except String α) = Except.ok a := rfl

/-- Property reads on non-null values never raise. -/
theorem jsGetE_ne_null (j : Json) (k : String) (h : j ≠ .null) :
    jsGetE j k = .ok (jsGetOk j k) := by
  cases j <;> simp_all [jsGetE, jsGetOk]


/-- The error branch of the per-line handler (source lines 123-131): a truthy
top-level `error` field short-circuits the type dispatch. -/
theorem handleData_error_branch (fs : List (String × Json)) (s : SessionState)
    (ev : Json) (he : lookupField fs "error" = some ev)
    (ht : jsTruthy ev = true) :
    handleData (.obj fs) s = .ok
      { s with
        error := ev
        isLoading := false
        currentQuery :=
          s.currentQuery.map (fun q => { q with streamError := some ev }) } := by
  unfold handleData
  simp [jsGetE, excBind_ok, excPure, he, jsTruthyO, ht]

/-- The documents branch of the per-line handler (source lines 133-142). -/
theorem handleData_documents (fs : List (String × Json)) (s : SessionState)
    (herr : jsTruthyO (lookupField fs "error") = false)
    (hty : lookupField fs "type" = some (.str "documents")) :
    handleData (.obj fs) s = .ok
      { s with
        currentQuery :=
          s.currentQuery.map (fun q =>
            { q with
              documents := lookupField fs "data"
              requestedK :=
                nullish (lookupField fs "requested_k")
                  (nullish q.requestedK (some .null))
              effectiveK :=
                nullish (lookupField fs "effective_k")
                  (nullish q.effectiveK (some .null)) }) } := by
  unfold handleData
  simp [jsGetE, excBind_ok, excPure, herr, hty]

/-- Exhaustive description of the successful outcomes of the per-line
handler: the state is unchanged (primitive payloads and unknown types), or
one of the error / documents / highlights / answer merge shapes applies. -/
theorem handleData_ok_cases (data : Json) (s s2 : SessionState)
    (h : handleData data s = .ok s2) :
    s2 = s
    ∨ (∃ fs ev, data = .obj fs ∧ lookupField fs "error" = some ev
        ∧ jsTruthy ev = true
        ∧ s2 = { s with
                 error := ev
                 isLoading := false
                 currentQuery := s.currentQuery.map
                   (fun q => { q with streamError := some ev }) })
    ∨ (∃ fs, data = .obj fs ∧ jsTruthyO (lookupField fs "error") = false
        ∧ lookupField fs "type" = some (.str "documents")
        ∧ s2 = { s with currentQuery := s.currentQuery.map (fun q =>
            { q with
              documents := lookupField fs "data"
              requestedK := nullish (lookupField fs "requested_k")
                (nullish q.requestedK (some .null))
              effectiveK := nullish (lookupField fs "effective_k")
                (nullish q.effectiveK (some .null)) }) })
    ∨ (∃ fs q ds newDs, data = .obj fs
        ∧ jsTruthyO (lookupField fs "error") = false
        ∧ lookupField fs "type" = some (.str "highlights")
        ∧ s.currentQuery = some q ∧ q.documents = some (.arr ds)
        ∧ s2 = { s with currentQuery := some
                          { q with
                            documents := some (.arr newDs)
                            requestedK := nullish (lookupField fs "requested_k")
                                (nullish q.requestedK (some .null))
                            effectiveK := nullish (lookupField fs "effective_k")
                                (nullish q.effectiveK (some .null)) } })
    ∨ (∃ fs dj, data = .obj fs ∧ jsTruthyO (lookupField fs "error") = false
        ∧ lookupField fs "type" = some (.str "answer")
        ∧ lookupField fs "data" = some dj ∧ dj ≠ .null
        ∧ (s2 = { s with currentQuery := s.currentQuery.map (fun q =>
              { q with answer := jsGetOk dj "answer",
                       structured_answer := jsGetOk dj "structured_answer" }) }
           ∨ s2 = { s with
               isLoading := false
               currentQuery := s.currentQuery.map (fun q =>
              { q with answer := jsGetOk dj "answer",
                       structured_answer := jsGetOk dj "structured_answer" }) })) := by
  cases data with
  | null => simp [handleData, jsGetE, excBind_error] at h
  | bool b =>
    have he : s = s2 := by simpa [handleData, jsGetE, excBind_ok, excPure] using h
    exact Or.inl he.symm
  | num n =>
    have he : s = s2 := by simpa [handleData, jsGetE, excBind_ok, excPure] using h
    exact Or.inl he.symm
  | str t =>
    have he : s = s2 := by simpa [handleData, jsGetE, excBind_ok, excPure] using h
    exact Or.inl he.symm
  | arr xs =>
    have he : s = s2 := by simpa [handleData, jsGetE, excBind_ok, excPure] using h
    exact Or.inl he.symm
  | obj fs =>
    unfold handleData at h
    simp only [jsGetE, excBind_ok] at h
    split at h
    case isTrue hb =>
      split at h
      case h_1 ev hev =>
        rw [hev] at hb
        simp only [jsTruthyO] at hb
        simp only [excPure, Except.ok.injEq] at h
        exact Or.inr (Or.inl ⟨fs, ev, rfl, hev, hb, h.symm⟩)
      case h_2 hev =>
        rw [hev] at hb
        simp [jsTruthyO] at hb
    case isFalse hb =>
      have hbf : jsTruthyO (lookupField fs "error") = false :=
        Bool.eq_false_iff.mpr hb
      split at h
      case h_1 t hty =>
        split at h
        case isTrue hdoc =>
          simp only [excPure, Except.ok.injEq] at h
          subst hdoc
          exact Or.inr (Or.inr (Or.inl ⟨fs, rfl, hbf, hty, h.symm⟩))
        case isFalse hdoc =>
          split at h
          case isTrue hhl =>
            subst hhl
            split at h
            case h_1 items hdd =>
              cases hhm : buildHighlightMap items with
              | error e => rw [hhm] at h; simp [excBind_error] at h
              | ok hm =>
                rw [hhm] at h
                simp only [excBind_ok] at h
                split at h
                case h_1 q hcq =>
                  split at h
                  case h_1 ds hdocs =>
                    cases hmap : ds.mapM (attachHighlights hm) with
                    | error e => rw [hmap] at h; simp [excBind_error] at h
                    | ok newDs =>
                      rw [hmap] at h
                      simp only [excBind_ok, excPure, Except.ok.injEq] at h
                      exact Or.inr (Or.inr (Or.inr (Or.inl
                        ⟨fs, q, ds, newDs, rfl, hbf, hty, hcq, hdocs, h.symm⟩)))
                  case h_2 hdocs => simp at h
                  case h_3 hdocs => simp at h
                  case h_4 v hv hdocs => simp at h
                case h_2 hcq => simp at h
            case h_2 hdd => simp at h
            case h_3 hdd => simp at h
            case h_4 v hv hdd => simp at h
          case isFalse hhl =>
            split at h
            case isTrue hans =>
              subst hans
              split at h
              case h_1 dj hdd =>
                cases dj
                case null => simp [excBind_error] at h
                all_goals
                  simp only [excBind_ok] at h
                  split at h
                  case isTrue hdn =>
                    simp only [excPure, Except.ok.injEq] at h
                    exact Or.inr (Or.inr (Or.inr (Or.inr
                      ⟨fs, _, rfl, hbf, hty, hdd, by simp, Or.inr h.symm⟩)))
                  case isFalse hdn =>
                    simp only [excPure, Except.ok.injEq] at h
                    exact Or.inr (Or.inr (Or.inr (Or.inr
                      ⟨fs, _, rfl, hbf, hty, hdd, by simp, Or.inl h.symm⟩)))
              case h_2 hdd => simp [excBind_error] at h
            case isFalse hans =>
              simp only [excPure, Except.ok.injEq] at h
              exact Or.inl h.symm
      case h_2 hty =>
        simp only [excPure, Except.ok.injEq] at h
        exact Or.inl h.symm

/-- Effect of `data.requested_k ?? prev.requestedK ?? null`: if the prior
value is not `undefined`, the result is either the prior value (when the
event value is nullish) or the non-null carried value. -/
theorem nullish_analysis (rk old : Option Json) (hold : old ≠ none) :
    nullish rk (nullish old (some .null)) = old
    ∨ ∃ v, rk = some v ∧ v ≠ Json.null
        ∧ nullish rk (nullish old (some .null)) = some v := by
  cases rk with
  | none =>
    left
    cases old with
    | none => exact absurd rfl hold
    | some o => cases o <;> rfl
  | some v =>
    cases v with
    | null =>
      left
      cases old with
      | none => exact absurd rfl hold
      | some o => cases o <;> rfl
    | bool b => exact Or.inr ⟨_, rfl, by simp, rfl⟩
    | num n => exact Or.inr ⟨_, rfl, by simp, rfl⟩
    | str t => exact Or.inr ⟨_, rfl, by simp, rfl⟩
    | arr xs => exact Or.inr ⟨_, rfl, by simp, rfl⟩
    | obj ofs => exact Or.inr ⟨_, rfl, by simp, rfl⟩

/-- A non-blank line that decodes hands the event to the handler; a handler
exception is caught into the parse-error state. -/
theorem processLine_decode_ok (line : List Char) (data : Json)
    (s : SessionState) (htrim : jsTrim line ≠ [])
    (h : decodeLine line = .ok data) :
    processLine s line =
      match handleData data s with
      | .ok s2 => s2
      | .error m => recordParseError ("stream_parse_error: " ++ m) s := by
  unfold processLine
  rw [if_neg htrim, h]

/-- C8 amended: an event whose top-level `error` field holds a truthy value
takes precedence over type handling — the value is recorded as the surfaced
error and as `streamError`, loading is cleared, no merge is applied (the
state is exactly the prior state with only those fields changed), and
processing of the remaining lines continues from that state. -/
theorem c8_amended (s : SessionState) (q : QueryResult) (line : List Char)
    (fs : List (String × Json)) (ev : Json) (rest : List (List Char))
    (hq : s.currentQuery = some q)
    (htrim : jsTrim line ≠ [])
    (hdec : decodeLine line = .ok (.obj fs))
    (herr : lookupField fs "error" = some ev)
    (htruthy : jsTruthy ev = true) :
    processLine s line =
      { s with
        error := ev
        isLoading := false
        currentQuery := some { q with streamError := some ev } }
    ∧ processLines (line :: rest) s = processLines rest (processLine s line) := by
  constructor
  · rw [processLine_decode_ok line (.obj fs) s htrim hdec,
      handleData_error_branch fs s ev herr htruthy]
    simp [hq]
  · rfl

/-- Witness for the amended C8: a concrete `error` event line processed from
the post-submission state. -/
theorem c8_witness :
    processLine s0 flushErr =
      { s0 with
        error := .str "timeout"
        isLoading := false
        currentQuery := some
          { initQuery "q" with streamError := some (.str "timeout") } } :=
  (c8_amended s0 (initQuery "q") flushErr [("error", .str "timeout")]
    (.str "timeout") [] rfl (by decide) rfl rfl rfl).1

/-- C7 amended: requestedK/effectiveK are only ever changed by documents or
highlights events carrying a non-null `requested_k`/`effective_k` (first two
conjuncts: the new value is the old one, or comes from such an event); a
documents event carrying them always sets them (last two conjuncts); answer
and error events — even ones carrying the fields — and parse failures leave
them unchanged. -/
theorem c7_amended (s : SessionState) (q : QueryResult) (line : List Char)
    (hq : s.currentQuery = some q)
    (hr : q.requestedK ≠ none) (he : q.effectiveK ≠ none) :
    ∃ q2, (processLine s line).currentQuery = some q2
      ∧ (q2.requestedK = q.requestedK
          ∨ ∃ fs rk, decodeLine line = .ok (.obj fs)
              ∧ (lookupField fs "type" = some (.str "documents")
                  ∨ lookupField fs "type" = some (.str "highlights"))
              ∧ jsTruthyO (lookupField fs "error") = false
              ∧ lookupField fs "requested_k" = some rk ∧ rk ≠ .null
              ∧ q2.requestedK = some rk)
      ∧ (q2.effectiveK = q.effectiveK
          ∨ ∃ fs ek, decodeLine line = .ok (.obj fs)
              ∧ (lookupField fs "type" = some (.str "documents")
                  ∨ lookupField fs "type" = some (.str "highlights"))
              ∧ jsTruthyO (lookupField fs "error") = false
              ∧ lookupField fs "effective_k" = some ek ∧ ek ≠ .null
              ∧ q2.effectiveK = some ek)
      ∧ (∀ fs rk, jsTrim line ≠ [] → decodeLine line = .ok (.obj fs) →
          lookupField fs "type" = some (.str "documents") →
          jsTruthyO (lookupField fs "error") = false →
          lookupField fs "requested_k" = some rk → rk ≠ .null →
          q2.requestedK = some rk)
      ∧ (∀ fs ek, jsTrim line ≠ [] → decodeLine line = .ok (.obj fs) →
          lookupField fs "type" = some (.str "documents") →
          jsTruthyO (lookupField fs "error") = false →
          lookupField fs "effective_k" = some ek → ek ≠ .null →
          q2.effectiveK = some ek) := by
  by_cases htrim : jsTrim line = []
  · refine ⟨q, ?_, Or.inl rfl, Or.inl rfl, ?_, ?_⟩
    · unfold processLine
      rw [if_pos htrim, hq]
    · intro fs rk htrim2 _ _ _ _ _
      exact absurd htrim htrim2
    · intro fs ek htrim2 _ _ _ _ _
      exact absurd htrim htrim2
  · cases hdec : decodeLine line with
    | error m =>
      refine ⟨{ q with streamError := some (.str ("stream_parse_error: " ++ m)) },
        ?_, Or.inl rfl, Or.inl rfl, ?_, ?_⟩
      · rw [processLine_decode_error line m s htrim hdec]
        simp [recordParseError, hq]
      · intro fs rk _ hdec2 _ _ _ _
        exact absurd hdec2 (by simp)
      · intro fs ek _ hdec2 _ _ _ _
        exact absurd hdec2 (by simp)
    | ok data =>
      have hpl := processLine_decode_ok line data s htrim hdec
      cases hh : handleData data s with
      | error m =>
        rw [hh] at hpl
        refine ⟨{ q with streamError := some (.str ("stream_parse_error: " ++ m)) },
          ?_, Or.inl rfl, Or.inl rfl, ?_, ?_⟩
        · rw [hpl]
          simp [recordParseError, hq]
        · intro fs rk _ hdec2 hty herr _ _
          have hdata : data = Json.obj fs := by injection hdec2
          subst hdata
          rw [handleData_documents fs s herr hty] at hh
          exact absurd hh (by simp)
        · intro fs ek _ hdec2 hty herr _ _
          have hdata : data = Json.obj fs := by injection hdec2
          subst hdata
          rw [handleData_documents fs s herr hty] at hh
          exact absurd hh (by simp)
      | ok s2 =>
        rw [hh] at hpl
        have hposr : ∀ fs rk, jsTrim line ≠ [] →
            (Except.ok data : Except String Json) = .ok (.obj fs) →
            lookupField fs "type" = some (.str "documents") →
            jsTruthyO (lookupField fs "error") = false →
            lookupField fs "requested_k" = some rk → rk ≠ .null →
            ∀ q2, (processLine s line).currentQuery = some q2 → q2.requestedK = some rk := by
          intro fs rk _ hdec2 hty herr hrk hrknull q2 hq2
          have hdata : data = Json.obj fs := by injection hdec2
          subst hdata
          rw [handleData_documents fs s herr hty] at hh
          have hs2 : s2 = _ := (Except.ok.inj hh).symm
          rw [hpl, hs2, hq] at hq2
          simp only [Option.map_some] at hq2
          have := (Option.some.inj hq2).symm
          rw [this]
          simp only []
          rw [hrk]
          cases rk with
          | null => exact absurd rfl hrknull
          | bool b => rfl
          | num n => rfl
          | str t => rfl
          | arr xs => rfl
          | obj ofs => rfl
        have hpose : ∀ fs ek, jsTrim line ≠ [] →
            (Except.ok data : Except String Json) = .ok (.obj fs) →
            lookupField fs "type" = some (.str "documents") →
            jsTruthyO (lookupField fs "error") = false →
            lookupField fs "effective_k" = some ek → ek ≠ .null →
            ∀ q2, (processLine s line).currentQuery = some q2 → q2.effectiveK = some ek := by
          intro fs ek _ hdec2 hty herr hek heknull q2 hq2
          have hdata : data = Json.obj fs := by injection hdec2
          subst hdata
          rw [handleData_documents fs s herr hty] at hh
          have hs2 : s2 = _ := (Except.ok.inj hh).symm
          rw [hpl, hs2, hq] at hq2
          simp only [Option.map_some] at hq2
          have := (Option.some.inj hq2).symm
          rw [this]
          simp only []
          rw [hek]
          cases ek with
          | null => exact absurd rfl heknull
          | bool b => rfl
          | num n => rfl
          | str t => rfl
          | arr xs => rfl
          | obj ofs => rfl
        rcases handleData_ok_cases data s s2 hh with hcase | hcase | hcase | hcase | hcase
        · subst hcase
          exact ⟨q, by rw [hpl, hq], Or.inl rfl, Or.inl rfl,
            fun fs rk a b c d e f => hposr fs rk a b c d e f q (by rw [hpl, hq]),
            fun fs ek a b c d e f => hpose fs ek a b c d e f q (by rw [hpl, hq])⟩
        · obtain ⟨fs, ev, hdata, hev, ht, hs2⟩ := hcase
          refine ⟨{ q with streamError := some ev }, ?_, Or.inl rfl, Or.inl rfl, ?_, ?_⟩
          · rw [hpl, hs2, hq]
            rfl
          · intro fs2 rk a b c d e f
            exact hposr fs2 rk a b c d e f _ (by rw [hpl, hs2, hq]; rfl)
          · intro fs2 ek a b c d e f
            exact hpose fs2 ek a b c d e f _ (by rw [hpl, hs2, hq]; rfl)
        · obtain ⟨fs, hdata, herr, hty, hs2⟩ := hcase
          subst hdata
          refine ⟨_, by rw [hpl, hs2, hq]; rfl, ?_, ?_, ?_, ?_⟩
          · rcases nullish_analysis (lookupField fs "requested_k") q.requestedK hr with
              hnl | ⟨v, hv, hvn, hnl⟩
            · exact Or.inl hnl
            · exact Or.inr ⟨fs, v, rfl, Or.inl hty, herr, hv, hvn, hnl⟩
          · rcases nullish_analysis (lookupField fs "effective_k") q.effectiveK he with
              hnl | ⟨v, hv, hvn, hnl⟩
            · exact Or.inl hnl
            · exact Or.inr ⟨fs, v, rfl, Or.inl hty, herr, hv, hvn, hnl⟩
          · intro fs2 rk a b c d e f
            exact hposr fs2 rk a b c d e f _ (by rw [hpl, hs2, hq]; rfl)
          · intro fs2 ek a b c d e f
            exact hpose fs2 ek a b c d e f _ (by rw [hpl, hs2, hq]; rfl)
        · obtain ⟨fs, q3, ds, newDs, hdata, herr, hty, hcq, hdocs, hs2⟩ := hcase
          subst hdata
          have hq3 : q = q3 := by
            rw [hq] at hcq
            exact Option.some.inj hcq
          subst hq3
          refine ⟨_, by rw [hpl, hs2], ?_, ?_, ?_, ?_⟩
          · rcases nullish_analysis (lookupField fs "requested_k") q.requestedK hr with
              hnl | ⟨v, hv, hvn, hnl⟩
            · exact Or.inl hnl
            · exact Or.inr ⟨fs, v, rfl, Or.inr hty, herr, hv, hvn, hnl⟩
          · rcases nullish_analysis (lookupField fs "effective_k") q.effectiveK he with
              hnl | ⟨v, hv, hvn, hnl⟩
            · exact Or.inl hnl
            · exact Or.inr ⟨fs, v, rfl, Or.inr hty, herr, hv, hvn, hnl⟩
          · intro fs2 rk a b c d e f
            exact hposr fs2 rk a b c d e f _ (by rw [hpl, hs2])
          · intro fs2 ek a b c d e f
            exact hpose fs2 ek a b c d e f _ (by rw [hpl, hs2])
        · obtain ⟨fs, dj, hdata, herr, hty, hdd, hne, hs2⟩ := hcase
          rcases hs2 with hs2 | hs2
          all_goals
            refine ⟨{ q with
                answer := jsGetOk dj "answer"
                structured_answer := jsGetOk dj "structured_answer" },
              by rw [hpl, hs2, hq]; rfl, Or.inl rfl, Or.inl rfl, ?_, ?_⟩
            · intro fs2 rk a b c d e f
              exact hposr fs2 rk a b c d e f _ (by rw [hpl, hs2, hq]; rfl)
            · intro fs2 ek a b c d e f
              exact hpose fs2 ek a b c d e f _ (by rw [hpl, hs2, hq]; rfl)

/-- Witness for the amended C7: applying the theorem to the concrete
documents line sets the k values carried by the event. -/
theorem c7_amended_witness :
    ∃ q2, (processLine s0 lineDocs).currentQuery = some q2
      ∧ q2.requestedK = some (.num 5) ∧ q2.effectiveK = some (.num 3) := by
  obtain ⟨q2, hcq, _, _, hposr, hpose⟩ :=
    c7_amended s0 (initQuery "q") lineDocs rfl (by simp [initQuery])
      (by simp [initQuery])
  refine ⟨q2, hcq, ?_, ?_⟩
  · exact hposr _ (.num 5) (by decide) rfl rfl rfl rfl (by simp)
  · exact hpose _ (.num 3) (by decide) rfl rfl rfl rfl (by simp)

/-- C9 amended: `answer` and `structured_answer` are written together, in the
same update, and only by the processing of an answer-typed event (whose
payload supplies both); every other event — error, documents, highlights,
unknown — and every parse failure leaves both unchanged.  (No at-most-once
guard exists: a later answer event writes them again.) -/
theorem c9_amended (s : SessionState) (q : QueryResult) (line : List Char)
    (hq : s.currentQuery = some q) :
    ∃ q2, (processLine s line).currentQuery = some q2
      ∧ ((q2.answer = q.answer ∧ q2.structured_answer = q.structured_answer)
          ∨ ∃ fs dj, decodeLine line = .ok (.obj fs)
              ∧ lookupField fs "type" = some (.str "answer")
              ∧ jsTruthyO (lookupField fs "error") = false
              ∧ lookupField fs "data" = some dj
              ∧ q2.answer = jsGetOk dj "answer"
              ∧ q2.structured_answer = jsGetOk dj "structured_answer") := by
  by_cases htrim : jsTrim line = []
  · refine ⟨q, ?_, Or.inl ⟨rfl, rfl⟩⟩
    unfold processLine
    rw [if_pos htrim, hq]
  · cases hdec : decodeLine line with
    | error m =>
      refine ⟨{ q with streamError := some (.str ("stream_parse_error: " ++ m)) },
        ?_, Or.inl ⟨rfl, rfl⟩⟩
      rw [processLine_decode_error line m s htrim hdec]
      simp [recordParseError, hq]
    | ok data =>
      have hpl := processLine_decode_ok line data s htrim hdec
      cases hh : handleData data s with
      | error m =>
        rw [hh] at hpl
        refine ⟨{ q with streamError := some (.str ("stream_parse_error: " ++ m)) },
          ?_, Or.inl ⟨rfl, rfl⟩⟩
        rw [hpl]
        simp [recordParseError, hq]
      | ok s2 =>
        rw [hh] at hpl
        rcases handleData_ok_cases data s s2 hh with hcase | hcase | hcase | hcase | hcase
        · subst hcase
          exact ⟨q, by rw [hpl, hq], Or.inl ⟨rfl, rfl⟩⟩
        · obtain ⟨fs, ev, hdata, hev, ht, hs2⟩ := hcase
          exact ⟨{ q with streamError := some ev },
            by rw [hpl, hs2, hq]; rfl, Or.inl ⟨rfl, rfl⟩⟩
        · obtain ⟨fs, hdata, herr, hty, hs2⟩ := hcase
          refine ⟨{ q with
              documents := lookupField fs "data"
              requestedK :=
                nullish (lookupField fs "requested_k")
                  (nullish q.requestedK (some .null))
              effectiveK :=
                nullish (lookupField fs "effective_k")
                  (nullish q.effectiveK (some .null)) },
            by rw [hpl, hs2, hq]; rfl, Or.inl ⟨rfl, rfl⟩⟩
        · obtain ⟨fs, q3, ds, newDs, hdata, herr, hty, hcq, hdocs, hs2⟩ := hcase
          have hq3 : q = q3 := by
            rw [hq] at hcq
            exact Option.some.inj hcq
          subst hq3
          exact ⟨{ q with
              documents := some (.arr newDs)
              requestedK :=
                nullish (lookupField fs "requested_k")
                  (nullish q.requestedK (some .null))
              effectiveK :=
                nullish (lookupField fs "effective_k")
                  (nullish q.effectiveK (some .null)) },
            by rw [hpl, hs2], Or.inl ⟨rfl, rfl⟩⟩
        · obtain ⟨fs, dj, hdata, herr, hty, hdd, hne, hs2⟩ := hcase
          subst hdata
          rcases hs2 with hs2 | hs2
          all_goals
            exact ⟨{ q with
                answer := jsGetOk dj "answer"
                structured_answer := jsGetOk dj "structured_answer" },
              by rw [hpl, hs2, hq]; rfl,
              Or.inr ⟨fs, dj, rfl, hty, herr, hdd, rfl, rfl⟩⟩

/-- Witness for the amended C9: the theorem applied to the concrete answer
line from the post-submission state. -/
theorem c9_amended_witness :
    ∃ q2, (processLine s0 lineAnswer).currentQuery = some q2
      ∧ ((q2.answer = (initQuery "q").answer
            ∧ q2.structured_answer = (initQuery "q").structured_answer)
          ∨ ∃ fs dj, decodeLine lineAnswer = .ok (.obj fs)
              ∧ lookupField fs "type" = some (.str "answer")
              ∧ jsTruthyO (lookupField fs "error") = false
              ∧ lookupField fs "data" = some dj
              ∧ q2.answer = jsGetOk dj "answer"
              ∧ q2.structured_answer = jsGetOk dj "structured_answer") :=
  c9_amended s0 (initQuery "q") lineAnswer rfl

/-- The final-buffer handler never changes any `QueryResult` field other
than `streamError`: no documents / highlights / answer merge happens on the
flushed line. -/
theorem handleFinal_ok_core (data : Json) (s s2 : SessionState)
    (h : handleFinal data s = .ok s2) :
    s2.currentQuery.map coreFields = s.currentQuery.map coreFields := by
  cases data with
  | null => simp [handleFinal, jsGetE, excBind_error] at h
  | obj fs =>
    unfold handleFinal at h
    simp only [jsGetE, excBind_ok] at h
    split at h
    all_goals simp only [excPure, excBind_ok] at h
    all_goals split at h
    all_goals simp only [excPure, Except.ok.injEq] at h
    all_goals rw [← h]
    all_goals cases hcq : s.currentQuery <;> simp [coreFields, hcq]
  | bool b =>
    have he : s = s2 := by
      simpa [handleFinal, jsGetE, excBind_ok, excPure, jsTruthyO] using h
    rw [← he]
  | num n =>
    have he : s = s2 := by
      simpa [handleFinal, jsGetE, excBind_ok, excPure, jsTruthyO] using h
    rw [← he]
  | str t =>
    have he : s = s2 := by
      simpa [handleFinal, jsGetE, excBind_ok, excPure, jsTruthyO] using h
    rw [← he]
  | arr xs =>
    have he : s = s2 := by
      simpa [handleFinal, jsGetE, excBind_ok, excPure, jsTruthyO] using h
    rw [← he]

/-- The final-buffer error check (source lines 215-223) on a truthy `error`
field: loading cleared, error value surfaced and recorded as `streamError`. -/
theorem handleFinal_error (fs : List (String × Json)) (s : SessionState)
    (ev : Json) (he : lookupField fs "error" = some ev)
    (ht : jsTruthy ev = true) :
    ∃ s2, handleFinal (.obj fs) s = .ok s2
      ∧ s2.isLoading = false ∧ s2.error = ev
      ∧ s2.currentQuery =
          s.currentQuery.map (fun q => { q with streamError := some ev }) := by
  unfold handleFinal
  simp only [jsGetE, excBind_ok, he, jsTruthyO, ht, Bool.or_true, if_true,
    excPure, excBind_ok]
  split
  · exact ⟨_, rfl, rfl, rfl, rfl⟩
  · exact ⟨_, rfl, rfl, rfl, rfl⟩

/-- The final-buffer completion check (source lines 225-227): an answer
event with a truthy `done` clears the loading flag. -/
theorem handleFinal_answer_done (fs : List (String × Json)) (s : SessionState)
    (hty : lookupField fs "type" = some (.str "answer"))
    (hdn : jsTruthyO (lookupField fs "done") = true) :
    ∃ s2, handleFinal (.obj fs) s = .ok s2 ∧ s2.isLoading = false := by
  unfold handleFinal
  simp only [jsGetE, excBind_ok, hty, hdn, excPure]
  split
  · exact ⟨_, rfl, rfl⟩
  · exact ⟨_, rfl, rfl⟩

/-- The final-buffer error check on an error-typed event (source lines
215-223): even with no (or a falsy) `error` field, the query is terminal —
loading cleared, `finalErrMsg` (the error value, or the fallback
`Unknown streaming error`) surfaced and recorded as `streamError`.  The
subsequent answer-done check cannot fire for an error-typed event. -/
theorem handleFinal_errorType (fs : List (String × Json)) (s : SessionState)
    (hty : lookupField fs "type" = some (.str "error")) :
    handleFinal (.obj fs) s = .ok
      { s with
        error := finalErrMsg (lookupField fs "error")
        isLoading := false
        currentQuery := s.currentQuery.map
          (fun q =>
            { q with streamError := some (finalErrMsg (lookupField fs "error")) }) } := by
  unfold handleFinal finalErrMsg
  simp [jsGetE, excBind_ok, excPure, hty]

/-- A final buffer that fails to decode is recorded with the distinct
final-buffer prefix. -/
theorem processFinal_decode_error (buffer : List Char) (m : String)
    (s : SessionState) (h : decodeLine buffer = .error m) :
    processFinal s buffer
      = recordParseError ("stream_parse_error(final): " ++ m) s := by
  unfold processFinal
  rw [h]

/-- A final buffer that decodes hands the event to the final handler. -/
theorem processFinal_decode_ok (buffer : List Char) (data : Json)
    (s : SessionState) (h : decodeLine buffer = .ok data) :
    processFinal s buffer =
      match handleFinal data s with
      | .ok s2 => s2
      | .error m => recordParseError ("stream_parse_error(final): " ++ m) s := by
  unfold processFinal
  rw [h]

/-- C2 amended: the flushed final line goes through the same resilient
decoder, and decode failure is recorded with the distinct
`stream_parse_error(final): ` prefix; an event carrying a truthy `error`
field sets `streamError` to it and clears loading (third conjunct); an
error-typed event — even with no or a falsy `error` field — is likewise
terminal, recording the error value or the fallback
`Unknown streaming error` (fifth conjunct); an answer event with a
completion flag clears loading (fourth conjunct) — but no type-specific
merge is applied to the flushed line: every `QueryResult` field other than
`streamError` is left exactly as it was (first conjunct), so a flushed
documents / highlights / answer payload is not folded into the result. -/
theorem c2_amended (buffer : List Char) (s : SessionState) :
    (processFinal s buffer).currentQuery.map coreFields
        = s.currentQuery.map coreFields
    ∧ (∀ m, decodeLine buffer = .error m →
        processFinal s buffer
          = recordParseError ("stream_parse_error(final): " ++ m) s)
    ∧ (∀ fs ev, decodeLine buffer = .ok (.obj fs) →
        lookupField fs "error" = some ev → jsTruthy ev = true →
        (processFinal s buffer).isLoading = false
        ∧ (processFinal s buffer).error = ev
        ∧ (processFinal s buffer).currentQuery
            = s.currentQuery.map (fun q => { q with streamError := some ev }))
    ∧ (∀ fs, decodeLine buffer = .ok (.obj fs) →
        lookupField fs "type" = some (.str "answer") →
        jsTruthyO (lookupField fs "done") = true →
        (processFinal s buffer).isLoading = false)
    ∧ (∀ fs, decodeLine buffer = .ok (.obj fs) →
        lookupField fs "type" = some (.str "error") →
        (processFinal s buffer).isLoading = false
        ∧ (processFinal s buffer).error = finalErrMsg (lookupField fs "error")
        ∧ (processFinal s buffer).currentQuery
            = s.currentQuery.map (fun q =>
                { q with
                  streamError :=
                    some (finalErrMsg (lookupField fs "error")) })) := by
  refine ⟨?_, ?_, ?_, ?_, ?_⟩
  · cases hdec : decodeLine buffer with
    | error m =>
      rw [processFinal_decode_error buffer m s hdec]
      exact recordParseError_core _ _
    | ok data =>
      rw [processFinal_decode_ok buffer data s hdec]
      cases hh : handleFinal data s with
      | error m => exact recordParseError_core _ _
      | ok s2 => exact handleFinal_ok_core data s s2 hh
  · intro m hm
    exact processFinal_decode_error buffer m s hm
  · intro fs ev hdec he ht
    obtain ⟨s2, hfin, hl, herr2, hcq⟩ := handleFinal_error fs s ev he ht
    rw [processFinal_decode_ok buffer (.obj fs) s hdec, hfin]
    exact ⟨hl, herr2, hcq⟩
  · intro fs hdec hty hdn
    obtain ⟨s2, hfin, hl⟩ := handleFinal_answer_done fs s hty hdn
    rw [processFinal_decode_ok buffer (.obj fs) s hdec, hfin]
    exact hl
  · intro fs hdec hty
    rw [processFinal_decode_ok buffer (.obj fs) s hdec,
      handleFinal_errorType fs s hty]
    exact ⟨rfl, rfl, rfl⟩

/-- Witness for the amended C2: the concrete flush buffer carrying an error
event, and the error-typed flush buffer with no error field, both from the
post-submission state. -/
theorem c2_witness :
    decodeLine flushErr = .ok (.obj [("error", .str "timeout")])
    ∧ (processFinal s0 flushErr).isLoading = false
    ∧ (processFinal s0 flushErr).error = .str "timeout"
    ∧ (processFinal s0 flushErr).currentQuery
        = some { initQuery "q" with streamError := some (.str "timeout") }
    ∧ decodeLine flushTypeError = .ok (.obj [("type", .str "error")])
    ∧ (processFinal s0 flushTypeError).isLoading = false
    ∧ (processFinal s0 flushTypeError).error = .str "Unknown streaming error"
    ∧ (processFinal s0 flushTypeError).currentQuery
        = some { initQuery "q" with
                 streamError := some (.str "Unknown streaming error") } := by
  obtain ⟨hl, he, hcq⟩ :=
    (c2_amended flushErr s0).2.2.1 [("error", .str "timeout")] (.str "timeout")
      rfl rfl rfl
  obtain ⟨hl2, he2, hcq2⟩ :=
    (c2_amended flushTypeError s0).2.2.2.2 [("type", .str "error")] rfl rfl
  refine ⟨rfl, hl, he, ?_, rfl, hl2, ?_, ?_⟩
  · rw [hcq]
    rfl
  · rw [he2]
    rfl
  · rw [hcq2]
    rfl

/-- Glueing a prefix onto a split never yields an empty split. -/
theorem glueHead_ne_nil (x : List Char) (ys : List (List Char)) :
    glueHead x ys ≠ [] := by
  cases ys <;> simp [glueHead]

/-- `split` on a string is never empty (as in JS). -/
theorem splitNl_ne_nil (l : List Char) : splitNl l ≠ [] := by
  induction l with
  | nil => simp [splitNl]
  | cons c cs ih =>
    simp only [splitNl]
    split
    · simp
    · exact glueHead_ne_nil _ _

/-- A newline-free string splits into the single segment itself. -/
theorem splitNl_no_nl (p : List Char) (h : '\n' ∉ p) : splitNl p = [p] := by
  induction p with
  | nil => rfl
  | cons c cs ih =>
    have hc : c ≠ '\n' := fun hc => h (by rw [hc]; exact List.mem_cons_self _ _)
    have hcs : '\n' ∉ cs := fun hm => h (List.mem_cons_of_mem c hm)
    simp only [splitNl, if_neg hc]
    rw [ih hcs]
    rfl

/-- Splitting a concatenation: all but the last segment of the left part,
then its last segment glued onto the first segment of the right part. -/
theorem splitNl_append (a b : List Char) :
    splitNl (a ++ b) = (splitNl a).dropLast
      ++ glueHead (((splitNl a).getLast?).getD []) (splitNl b) := by
  induction a with
  | nil =>
    cases h : splitNl b with
    | nil => exact absurd h (splitNl_ne_nil b)
    | cons y ys => simp [splitNl, glueHead, h]
  | cons c cs ih =>
    by_cases hc : c = '\n'
    · subst hc
      have h1 : splitNl (('\n' :: cs) ++ b) = [] :: splitNl (cs ++ b) := by
        simp [splitNl]
      have h2 : splitNl ('\n' :: cs) = [] :: splitNl cs := by
        simp [splitNl]
      rw [h1, ih, h2]
      cases h : splitNl cs with
      | nil => exact absurd h (splitNl_ne_nil cs)
      | cons y ys =>
        cases ys with
        | nil => simp [List.getLast?_cons_cons]
        | cons z zs => simp [List.getLast?_cons_cons]
    · have h1 : splitNl ((c :: cs) ++ b) = glueHead [c] (splitNl (cs ++ b)) := by
        simp [splitNl, hc]
      have h2 : splitNl (c :: cs) = glueHead [c] (splitNl cs) := by
        simp [splitNl, hc]
      rw [h1, ih, h2]
      cases hS : splitNl cs with
      | nil => exact absurd hS (splitNl_ne_nil cs)
      | cons y ys =>
        cases ys with
        | nil =>
          cases hsb : splitNl b with
          | nil => exact absurd hsb (splitNl_ne_nil b)
          | cons yb tb => simp [glueHead]
        | cons z zs =>
          simp [glueHead, List.getLast?_cons_cons, List.dropLast_cons₂]

/-- The retained buffer (last split segment) never contains a newline. -/
theorem noNl_getLast (l : List Char) :
    '\n' ∉ ((splitNl l).getLast?).getD [] := by
  induction l with
  | nil => simp [splitNl]
  | cons c cs ih =>
    by_cases hc : c = '\n'
    · subst hc
      have h2 : splitNl ('\n' :: cs) = [] :: splitNl cs := by simp [splitNl]
      rw [h2]
      cases h : splitNl cs with
      | nil => exact absurd h (splitNl_ne_nil cs)
      | cons y ys =>
        rw [h] at ih
        simpa [List.getLast?_cons_cons] using ih
    · have h2 : splitNl (c :: cs) = glueHead [c] (splitNl cs) := by
        simp [splitNl, hc]
      rw [h2]
      cases h : splitNl cs with
      | nil => exact absurd h (splitNl_ne_nil cs)
      | cons y ys =>
        rw [h] at ih
        cases ys with
        | nil =>
          simp only [glueHead, List.getLast?_singleton, Option.getD_some] at ih ⊢
          intro hmem
          rcases List.mem_cons.mp hmem with hmem | hmem
          · exact hc hmem.symm
          · exact ih (by simpa using hmem)
        | cons z zs =>
          simpa [glueHead, List.getLast?_cons_cons] using ih

/-- The last element of an append with a non-empty right part. -/
theorem getLast?_append_right (xs ys : List (List Char)) (h : ys ≠ []) :
    (xs ++ ys).getLast? = ys.getLast? := by
  rw [List.getLast?_append]
  cases hy : ys.getLast? with
  | none =>
    cases ys with
    | nil => exact absurd rfl h
    | cons z zs =>
      exfalso
      rw [List.getLast?_eq_getLast _ (by simp)] at hy
      simp at hy
  | some v => rfl

/-- Accumulator form of the chunk decoder fold. -/
theorem decodeChunk_go (bs : List Nat) (d : DecState) (acc : List Char) :
    bs.foldl (fun p b => ((utf8Step p.1 b).1, p.2 ++ (utf8Step p.1 b).2)) (d, acc)
      = ((decodeChunk d bs).1, acc ++ (decodeChunk d bs).2) := by
  induction bs generalizing d acc with
  | nil => simp [decodeChunk]
  | cons b bs ih =>
    simp only [decodeChunk, List.foldl_cons]
    rw [ih, ih]
    simp

/-- The stateful UTF-8 decoder is compositional: decoding a concatenation
equals decoding the parts in sequence, carrying the decoder state. -/
theorem decodeChunk_append (d : DecState) (b1 b2 : List Nat) :
    decodeChunk d (b1 ++ b2)
      = ((decodeChunk (decodeChunk d b1).1 b2).1,
         (decodeChunk d b1).2 ++ (decodeChunk (decodeChunk d b1).1 b2).2) := by
  show (b1 ++ b2).foldl _ (d, []) = _
  rw [List.foldl_append]
  exact decodeChunk_go b2 (decodeChunk d b1).1 (decodeChunk d b1).2

/-- The framer step is compositional: processing two chunks in sequence is
processing their concatenation as one chunk. -/
theorem framerChunk_append (st : FrState) (b1 b2 : List Nat) :
    framerChunk (framerChunk st b1) b2 = framerChunk st (b1 ++ b2) := by
  unfold framerChunk
  rw [decodeChunk_append]
  have hbufnl := noNl_getLast (st.buf ++ (decodeChunk st.dec b1).2)
  have hK : splitNl ((((splitNl (st.buf ++ (decodeChunk st.dec b1).2)).getLast?).getD [])
        ++ (decodeChunk (decodeChunk st.dec b1).1 b2).2)
      = glueHead (((splitNl (st.buf ++ (decodeChunk st.dec b1).2)).getLast?).getD [])
          (splitNl (decodeChunk (decodeChunk st.dec b1).1 b2).2) := by
    rw [splitNl_append, splitNl_no_nl _ hbufnl]
    simp [glueHead]
  have hG := splitNl_append (st.buf ++ (decodeChunk st.dec b1).2)
    (decodeChunk (decodeChunk st.dec b1).1 b2).2
  have hglue : glueHead (((splitNl (st.buf ++ (decodeChunk st.dec b1).2)).getLast?).getD [])
      (splitNl (decodeChunk (decodeChunk st.dec b1).1 b2).2) ≠ [] :=
    glueHead_ne_nil _ _
  simp only [FrState.mk.injEq]
  refine ⟨trivial, ?_, ?_⟩
  · rw [hK, ← List.append_assoc, hG,
      getLast?_append_right _ _ hglue]
  · rw [hK, ← List.append_assoc, hG,
      List.dropLast_append_of_ne_nil _ hglue, List.append_assoc]

/-- Folding the framer over chunks equals one step on the join. -/
theorem foldl_framerChunk (chunks : List (List Nat)) (st : FrState)
    (bs : List Nat) :
    chunks.foldl framerChunk (framerChunk st bs)
      = framerChunk st (bs ++ chunks.join) := by
  induction chunks generalizing bs with
  | nil => simp
  | cons c rest ih =>
    simp only [List.foldl_cons, List.join_cons]
    rw [framerChunk_append, ih, List.append_assoc]

/-- The framer result depends only on the concatenation of the chunks. -/
theorem runFramer_join (chunks : List (List Nat)) :
    runFramer chunks = framerChunk frInit chunks.join := by
  cases chunks with
  | nil => rfl
  | cons c rest =>
    show rest.foldl framerChunk (framerChunk frInit c) = _
    rw [foldl_framerChunk]
    simp

/-- C6: framing is chunk-boundary-invariant.  Any two byte-level chunkings
of the same response body (including splits in the middle of a multi-byte
UTF-8 code point, carried over by the stateful decoder) yield the same
ordered sequence of logical lines, including the final flushed unterminated
line when present. -/
theorem c6_framing_chunk_invariant (c1 c2 : List (List Nat))
    (h : c1.join = c2.join) :
    framedLines c1 = framedLines c2 := by
  unfold framedLines
  rw [runFramer_join, runFramer_join, h]

/-- Witness for C6: the sample body split in the middle of the two-byte
code point U+00E9 versus split elsewhere, both framed to `a`, `\xc3\xa9`, `b`
(the middle line being the single decoded code point 233). -/
theorem c6_witness :
    chunksMidCodepoint.join = chunksOther.join
    ∧ framedLines chunksMidCodepoint = framedLines chunksOther
    ∧ framedLines chunksMidCodepoint = [['a'], [Char.ofNat 233], ['b']] :=
  ⟨by decide, c6_framing_chunk_invariant chunksMidCodepoint chunksOther (by decide),
   rfl⟩
